import Mathlib

/-!
Shallow embedding of the aeronav vision-service backend
(`src/backend/vision_service/server.py`) and proofs about it.

The embedding translates the Python source directly:
* dictionaries become structures with the same fields;
* a Python function that can raise becomes a function into `Option`
  (`none` models the call raising);
* the websocket message loop becomes a recursion over the list of inbound
  messages, producing the list of outbound messages and how the session ends.

Definitions whose names start with `spec_` are the one exception: they follow
the specification's words (spec.md section 4.5) and exist only to be compared
with the definitions taken from the source.
-/

namespace AeroNav

/-- A landmark as produced by the hand tracker: a Python list of coordinates,
normally `[x, y, z]`.  Modelled as a list of rationals so that lists with
missing coordinates are representable, exactly as they are in Python. -/
abbrev Landmark := List ℚ

/-- Bounding-box dictionary `{"x", "y", "width", "height"}`. -/
structure BoundingBox where
  x : ℚ
  y : ℚ
  width : ℚ
  height : ℚ
deriving DecidableEq

/-- One hand-detection dictionary as produced by `HandTracker.detect` and
re-serialised field-for-field by the frame handler (server.py lines 137-150;
the serialisation maps every field to itself, so it is the identity here). -/
structure Hand where
  landmarks : List Landmark
  handedness : String
  confidence : ℚ
  boundingBox : BoundingBox
deriving DecidableEq

/-- The nested `direction` dictionary of a control signal. -/
structure Direction where
  x : ℚ
  y : ℚ
deriving DecidableEq

/-- The dictionary returned by `calculate_control_signal`. -/
structure ControlSignal where
  direction : Direction
  thrust : ℚ
  action : String
deriving DecidableEq

/-- Embedding of `calculate_control_signal` (server.py lines 188-217).
Python raising is modelled as `none`:
* `sum(l[0] for l in landmarks) / len(landmarks)` raises `ZeroDivisionError`
  when the landmark list is empty (first guard);
* `l[0]` / `l[1]` raise `IndexError` when some landmark has fewer than two
  entries (second guard);
* under `len(landmarks[0]) > 2`, `l[2]` raises `IndexError` when some other
  landmark has fewer than three entries (inner guard).
`image_shape` is a parameter of the source function whose body never reads
it. -/
def calculate_control_signal (hand : Hand) (image_shape : List ℕ) : Option ControlSignal :=
  let landmarks := hand.landmarks
  if landmarks.length = 0 then none
  else if landmarks.all (fun l => 2 ≤ l.length) then
    let n : ℚ := landmarks.length
    let center_x : ℚ := (landmarks.map (fun l => l.getD 0 0)).sum / n
    let center_y : ℚ := (landmarks.map (fun l => l.getD 1 0)).sum / n
    let dir_x : ℚ := (center_x - 1/2) * 2
    let dir_y : ℚ := (1/2 - center_y) * 2
    if 2 < landmarks.headI.length then
      if landmarks.all (fun l => 3 ≤ l.length) then
        let avg_z : ℚ := (landmarks.map (fun l => l.getD 2 0)).sum / n
        let thrust : ℚ := max 0 (min 1 (1 - (avg_z + 1/2)))
        some { direction := { x := dir_x, y := dir_y }, thrust := thrust,
               action := if 21 ≤ landmarks.length then
                   (if 7/10 < thrust then "BOOST" else "IDLE") else "IDLE" }
      else none
    else
      let avg_z : ℚ := 0
      let thrust : ℚ := max 0 (min 1 (1 - (avg_z + 1/2)))
      some { direction := { x := dir_x, y := dir_y }, thrust := thrust,
             action := if 21 ≤ landmarks.length then
                 (if 7/10 < thrust then "BOOST" else "IDLE") else "IDLE" }
  else none

/-- Reference definition following the spec's words: the x component of the
hand centre, `mean(landmark.x for all landmarks)`.  With `Landmark` a
coordinate list, `landmark.x` is entry 0 (`getD` supplies an unused default
for degenerate landmarks). -/
def spec_center_x (landmarks : List Landmark) : ℚ :=
  ((landmarks.map (fun l => l.getD 0 0)).sum) / (landmarks.length : ℚ)

/-- Reference definition following the spec's words: the y component of the
hand centre, `mean(landmark.y for all landmarks)`. -/
def spec_center_y (landmarks : List Landmark) : ℚ :=
  ((landmarks.map (fun l => l.getD 1 0)).sum) / (landmarks.length : ℚ)

/-- Reference definition following the spec's words: depth is present for a
landmark set when every landmark carries a z coordinate. -/
def spec_depth_present (landmarks : List Landmark) : Bool :=
  landmarks.all (fun l => 3 ≤ l.length)

/-- Reference definition following the spec's words: `avg_z` is the mean
landmark z when depth is present and 0 otherwise. -/
def spec_avg_z (landmarks : List Landmark) : ℚ :=
  if spec_depth_present landmarks then
    ((landmarks.map (fun l => l.getD 2 0)).sum) / (landmarks.length : ℚ)
  else 0

/-- Reference definition following the spec's words:
`direction.x = (center.x - 0.5) * 2`, `direction.y = (0.5 - center.y) * 2`. -/
def spec_direction (landmarks : List Landmark) : Direction :=
  { x := (spec_center_x landmarks - 1/2) * 2,
    y := (1/2 - spec_center_y landmarks) * 2 }

/-- Reference definition following the spec's words:
`thrust = clamp(1 - (avg_z + 0.5), 0, 1)`. -/
def spec_thrust (landmarks : List Landmark) : ℚ :=
  max 0 (min 1 (1 - (spec_avg_z landmarks + 1/2)))

/-- One object-detection dictionary as produced by `YOLODetector.detect`
(yolo_detector.py lines 62-72).  The `"class"` key is rendered as
`class_name` because `class` is a Lean keyword. -/
structure ObjectDetection where
  class_name : String
  classId : ℤ
  confidence : ℚ
  boundingBox : BoundingBox
deriving DecidableEq

/-- One pose landmark dictionary (pose_estimator.py lines 55-60). -/
structure PoseKeypoint where
  x : ℚ
  y : ℚ
  z : ℚ
  visibility : ℚ
deriving DecidableEq

/-- The pose dictionary produced by `PoseEstimator.detect`.  server.py only
passes it through unchanged, so the key-point projections are not needed. -/
structure PoseData where
  landmarks : List PoseKeypoint
deriving DecidableEq

/-- A decoded image: opaque pixel content plus the numpy `shape` read at
server.py line 165. -/
structure Image where
  pixels : ℕ
  shape : List ℕ
deriving DecidableEq

/-- The caller-supplied `config` dictionary of a `config` message, holding
the model flags named by the spec. -/
structure Config where
  detectObjects : Option Bool
  detectPose : Option Bool
deriving DecidableEq

/-- Default of `message.get("config", {})`: the empty dictionary. -/
def emptyConfig : Config := { detectObjects := none, detectPose := none }

/-- One parsed inbound websocket message, after `json.loads`, keyed by its
`"type"` field (server.py lines 115, 171, 175).  `Option` fields model keys
that `message.get` may find absent. -/
inductive InMessage where
  | frame (data : Option String) (timestamp : Option ℚ)
      (detectObjects : Option Bool) (detectPose : Option Bool)
  | ping (timestamp : Option ℚ)
  | config (config : Option Config)
  | unknown
deriving DecidableEq

/-- The aggregated detection dictionary built at server.py lines 125-132 and
sent to the client at line 169. -/
structure DetectionResult where
  timestamp : Option ℚ
  hands : List Hand
  objects : List ObjectDetection
  pose : Option PoseData
  control : Option ControlSignal
deriving DecidableEq

/-- One outbound websocket message. -/
inductive OutMessage where
  | detection (r : DetectionResult)
  | pong (timestamp : Option ℚ)
  | config_ack (config : Config)
deriving DecidableEq

/-- How a session terminates: `closing` models the `WebSocketDisconnect`
branch (client went away, input exhausted), `faulted` models the
`except Exception` branch that logs and force-closes the connection
(server.py lines 181-185). -/
inductive SessionEnd where
  | closing
  | faulted
deriving DecidableEq

/-- The process-wide state the websocket handler reads: the behaviour of
`decode_image` (wrapping cv2, external to this repository) and the three
global model adapters, `none` when a global was never assigned.  A call
returning `none` models the call raising; `decode_image` re-raises every
decode failure (server.py lines 91-100). -/
structure Env where
  decode : String → Option Image
  hand_tracker : Option (Image → Option (List Hand))
  yolo_detector : Option (Image → Option (List ObjectDetection))
  pose_estimator : Option (Image → Option (Option PoseData))

/-- Hand tracking step (server.py lines 134-150): skipped when the global is
unset, otherwise the adapter runs and its hand list is re-serialised
unchanged. -/
def detect_hands (env : Env) (image : Image) : Option (List Hand) :=
  match env.hand_tracker with
  | none => some []
  | some track => track image

/-- Object detection step (server.py lines 152-155): runs only when the
global is set and `message.get("detectObjects", False)` is true. -/
def detect_objects (env : Env) (image : Image) (flag : Bool) : Option (List ObjectDetection) :=
  match env.yolo_detector, flag with
  | some det, true => det image
  | _, _ => some []

/-- Pose estimation step (server.py lines 157-160). -/
def detect_pose (env : Env) (image : Image) (flag : Bool) : Option (Option PoseData) :=
  match env.pose_estimator, flag with
  | some det, true => det image
  | _, _ => some none

/-- Control derivation step (server.py lines 162-166): the first hand is the
primary hand; with no hands the `control` slot keeps its initial `None`. -/
def control_of_hands (hands : List Hand) (image : Image) : Option (Option ControlSignal) :=
  match hands with
  | [] => some none
  | h :: _ =>
    match calculate_control_signal h image.shape with
    | none => none
    | some c => some (some c)

/-- Processing of one `frame` message (server.py lines 115-169), returning
the messages sent for it, or `none` when an exception escapes to the outer
handler.  A missing or empty (falsy) `data` field hits the `continue` at
line 119 and sends nothing. -/
def handle_frame (env : Env) (data : Option String) (timestamp : Option ℚ)
    (detectObjects : Option Bool) (detectPose : Option Bool) : Option (List OutMessage) :=
  match data with
  | none => some []
  | some s =>
    if s = "" then some []
    else
      (env.decode s).bind fun image =>
      (detect_hands env image).bind fun hands =>
      (detect_objects env image (detectObjects.getD false)).bind fun objects =>
      (detect_pose env image (detectPose.getD false)).bind fun pose =>
      (control_of_hands hands image).bind fun control =>
      some [OutMessage.detection
        { timestamp := timestamp, hands := hands, objects := objects,
          pose := pose, control := control }]

/-- One iteration of the message loop (server.py lines 110-179).  Note the
`config` branch only echoes the caller-supplied dictionary back
(`config_ack`); nothing is stored — the handler keeps no per-session state
at all, and frame processing reads only the frame message's own flags. -/
def handle_message (env : Env) (msg : InMessage) : Option (List OutMessage) :=
  match msg with
  | InMessage.frame data timestamp detectObjects detectPose =>
      handle_frame env data timestamp detectObjects detectPose
  | InMessage.ping timestamp => some [OutMessage.pong timestamp]
  | InMessage.config config => some [OutMessage.config_ack (config.getD emptyConfig)]
  | InMessage.unknown => some []

/-- The whole session over a finite inbound stream: messages are handled
strictly in order; exhausting the stream is the disconnect path
(`SessionEnd.closing`); the first message whose handling raises ends the
session immediately with the connection force-closed (`SessionEnd.faulted`),
emitting nothing further. -/
def run_session (env : Env) : List InMessage → List OutMessage × SessionEnd
  | [] => ([], SessionEnd.closing)
  | msg :: rest =>
    match handle_message env msg with
    | none => ([], SessionEnd.faulted)
    | some outs => (outs ++ (run_session env rest).1, (run_session env rest).2)

/-- Which of the four constructor calls inside `startup_event`'s `try` block
would succeed (e.g. `HandTracker(...)` raises `ImportError` when mediapipe
is missing). -/
structure InitOutcome where
  vision_processor_ok : Bool
  hand_tracker_ok : Bool
  yolo_detector_ok : Bool
  pose_estimator_ok : Bool
deriving DecidableEq

/-- Which globals are set (not `None`) after startup; these are exactly the
`models_loaded` flags reported by the health endpoint
(server.py lines 228-232). -/
structure BackendModels where
  vision_processor_loaded : Bool
  hand_tracker_loaded : Bool
  yolo_detector_loaded : Bool
  pose_estimator_loaded : Bool
deriving DecidableEq

/-- Embedding of `startup_event` (server.py lines 43-71): the four
constructor calls run in sequence inside a single `try`; the `except` clause
logs and re-raises, so the first failure aborts startup (`none`) and no
later global is assigned.  Startup completes only when all four succeed,
and then every capability flag is true. -/
def startup_event (r : InitOutcome) : Option BackendModels :=
  if r.vision_processor_ok then
    if r.hand_tracker_ok then
      if r.yolo_detector_ok then
        if r.pose_estimator_ok then
          some { vision_processor_loaded := true, hand_tracker_loaded := true,
                 yolo_detector_loaded := true, pose_estimator_loaded := true }
        else none
      else none
    else none
  else none

/-! Concrete fixtures used by witnesses and counterexamples. -/

/-- A decoded test image. -/
def imgA : Image := { pixels := 0, shape := [480, 640, 3] }

/-- A hand with a single centred landmark (fewer than 21 points). -/
def handSmall : Hand :=
  { landmarks := [[1/2, 1/2, 0]], handedness := "Left", confidence := 9/10,
    boundingBox := { x := 1/2, y := 1/2, width := 0, height := 0 } }

/-- A full 21-landmark hand held close to the camera (every z is -1). -/
def handBoost : Hand :=
  { landmarks := List.replicate 21 [0, 0, -1], handedness := "Right", confidence := 9/10,
    boundingBox := { x := 0, y := 0, width := 0, height := 0 } }

/-- An object detection the YOLO adapter could return. -/
def objA : ObjectDetection :=
  { class_name := "person", classId := 0, confidence := 9/10,
    boundingBox := { x := 10, y := 10, width := 50, height := 50 } }

/-- Backend whose decoder succeeds and whose hand tracker sees `handSmall`. -/
def envGood : Env :=
  { decode := fun _ => some imgA,
    hand_tracker := some (fun _ => some [handSmall]),
    yolo_detector := some (fun _ => some [objA]),
    pose_estimator := none }

/-- Backend whose hand tracker sees no hands but whose object detector would
report `objA` on every frame it is asked about. -/
def envNoHands : Env :=
  { decode := fun _ => some imgA,
    hand_tracker := some (fun _ => some []),
    yolo_detector := some (fun _ => some [objA]),
    pose_estimator := none }

/-- Backend whose decoder raises on every payload. -/
def envDecodeFail : Env :=
  { decode := fun _ => none, hand_tracker := none, yolo_detector := none,
    pose_estimator := none }

/-- The control signal derived from `handSmall`. -/
def csW : ControlSignal := { direction := { x := 0, y := 0 }, thrust := 1/2, action := "IDLE" }

/-- The detection result a session on `envGood` emits for one frame. -/
def rW : DetectionResult :=
  { timestamp := some 1, hands := [handSmall], objects := [], pose := none,
    control := some csW }

/-! Helper lemmas, shared between claims. -/

/-- The default-valued head of a non-empty list is a member. -/
theorem headI_mem_of_ne_nil {α : Type} [Inhabited α] {l : List α} (h : l ≠ []) :
    l.headI ∈ l := by
  cases l with
  | nil => exact absurd rfl h
  | cons a t => exact List.mem_cons_self a t

/-- The mean of the i-th coordinates lies in `[0, 1]` when every i-th
coordinate does. -/
theorem mean_getD_bounds (lms : List Landmark) (i : ℕ) (hne : lms ≠ [])
    (hlo : ∀ l ∈ lms, 0 ≤ l.getD i 0) (hhi : ∀ l ∈ lms, l.getD i 0 ≤ 1) :
    0 ≤ (lms.map (fun l => l.getD i 0)).sum / (lms.length : ℚ) ∧
    (lms.map (fun l => l.getD i 0)).sum / (lms.length : ℚ) ≤ 1 := by
  have hn : (0 : ℚ) < (lms.length : ℚ) := by
    exact_mod_cast List.length_pos.mpr hne
  constructor
  · apply div_nonneg _ hn.le
    apply List.sum_nonneg
    intro x hx
    rcases List.mem_map.mp hx with ⟨a, ha, rfl⟩
    exact hlo a ha
  · rw [div_le_one hn]
    have hb : ∀ x ∈ lms.map (fun l => l.getD i 0), x ≤ (1 : ℚ) := by
      intro x hx
      rcases List.mem_map.mp hx with ⟨a, ha, rfl⟩
      exact hhi a ha
    have hs := List.sum_le_card_nsmul (lms.map (fun l => l.getD i 0)) 1 hb
    simpa [List.length_map, nsmul_eq_mul] using hs

/-- Core evaluation lemma: on a non-empty landmark list whose landmarks all
carry x and y, and whose depth is uniform (if the first landmark carries z
then all do), `calculate_control_signal` succeeds, its direction and thrust
are the spec's reference values, and its action is the 21-landmark-gated
boost decision. -/
theorem calculate_eq_spec (hand : Hand) (image_shape : List ℕ)
    (h1 : hand.landmarks ≠ [])
    (h2 : ∀ l ∈ hand.landmarks, 2 ≤ l.length)
    (h3 : 2 < hand.landmarks.headI.length → ∀ l ∈ hand.landmarks, 3 ≤ l.length) :
    calculate_control_signal hand image_shape = some
      { direction := spec_direction hand.landmarks,
        thrust := spec_thrust hand.landmarks,
        action := if 21 ≤ hand.landmarks.length then
            (if 7/10 < spec_thrust hand.landmarks then "BOOST" else "IDLE")
          else "IDLE" } := by
  have hlen : ¬ hand.landmarks.length = 0 := by
    simpa [List.length_eq_zero] using h1
  have hall2 : hand.landmarks.all (fun l => decide (2 ≤ l.length)) = true :=
    List.all_eq_true.mpr (fun x hx => decide_eq_true (h2 x hx))
  simp only [calculate_control_signal]
  rw [if_neg hlen, if_pos hall2]
  by_cases hd : 2 < hand.landmarks.headI.length
  · have hall3 : hand.landmarks.all (fun l => decide (3 ≤ l.length)) = true :=
      List.all_eq_true.mpr (fun x hx => decide_eq_true (h3 hd x hx))
    rw [if_pos hd, if_pos hall3]
    have hdp : spec_depth_present hand.landmarks = true := hall3
    simp only [spec_direction, spec_center_x, spec_center_y, spec_thrust, spec_avg_z, hdp,
      if_pos]
  · rw [if_neg hd]
    have hdp : ¬ spec_depth_present hand.landmarks = true := by
      rw [spec_depth_present, List.all_eq_true]
      intro hall
      have := hall hand.landmarks.headI (headI_mem_of_ne_nil h1)
      rw [decide_eq_true_eq] at this
      omega
    simp only [spec_direction, spec_center_x, spec_center_y, spec_thrust, spec_avg_z, hdp,
      if_false, Bool.false_eq_true, ite_false]

/-- An empty landmark list makes `calculate_control_signal` raise
(`ZeroDivisionError` computing the centre). -/
theorem calculate_none_of_nil (hand : Hand) (image_shape : List ℕ)
    (h : hand.landmarks = []) : calculate_control_signal hand image_shape = none := by
  simp [calculate_control_signal, h]

/-- A landmark without both x and y makes `calculate_control_signal` raise
(`IndexError` on `l[0]` or `l[1]`). -/
theorem calculate_none_of_missing_xy (hand : Hand) (image_shape : List ℕ)
    (h : ¬ (hand.landmarks.all fun l => 2 ≤ l.length) = true) :
    calculate_control_signal hand image_shape = none := by
  simp only [calculate_control_signal]
  by_cases h0 : hand.landmarks.length = 0
  · rw [if_pos h0]
  · rw [if_neg h0, if_neg h]

/-- When the first landmark carries z but some landmark does not,
`calculate_control_signal` raises (`IndexError` on `l[2]`). -/
theorem calculate_none_of_missing_z (hand : Hand) (image_shape : List ℕ)
    (hd : 2 < hand.landmarks.headI.length)
    (h : ¬ (hand.landmarks.all fun l => 3 ≤ l.length) = true) :
    calculate_control_signal hand image_shape = none := by
  simp only [calculate_control_signal]
  by_cases h0 : hand.landmarks.length = 0
  · rw [if_pos h0]
  · by_cases h2 : (hand.landmarks.all fun l => 2 ≤ l.length) = true
    · rw [if_neg h0, if_pos h2, if_pos hd, if_neg h]
    · rw [if_neg h0, if_neg h2]

/-- Inversion on a successful run of `calculate_control_signal`: the landmark
list was non-empty and two-coordinate, the direction components are the
reference means, the thrust is some clamped value, and the action is the
21-landmark-gated boost decision over the returned thrust. -/
theorem calculate_inv (hand : Hand) (image_shape : List ℕ) (c : ControlSignal)
    (h : calculate_control_signal hand image_shape = some c) :
    hand.landmarks ≠ [] ∧ (∀ l ∈ hand.landmarks, 2 ≤ l.length) ∧
    c.direction.x = (spec_center_x hand.landmarks - 1/2) * 2 ∧
    c.direction.y = (1/2 - spec_center_y hand.landmarks) * 2 ∧
    (∃ z : ℚ, c.thrust = max 0 (min 1 (1 - (z + 1/2)))) ∧
    c.action = (if 21 ≤ hand.landmarks.length then
        (if 7/10 < c.thrust then "BOOST" else "IDLE") else "IDLE") := by
  have h1 : hand.landmarks ≠ [] := by
    intro hnil
    rw [calculate_none_of_nil hand image_shape hnil] at h
    exact Option.noConfusion h
  have hall2 : (hand.landmarks.all fun l => 2 ≤ l.length) = true := by
    by_contra hno
    rw [calculate_none_of_missing_xy hand image_shape hno] at h
    exact Option.noConfusion h
  have h2 : ∀ l ∈ hand.landmarks, 2 ≤ l.length := by
    intro l hl
    have := List.all_eq_true.mp hall2 l hl
    rwa [decide_eq_true_eq] at this
  have h3 : 2 < hand.landmarks.headI.length → ∀ l ∈ hand.landmarks, 3 ≤ l.length := by
    intro hd
    have hall3 : (hand.landmarks.all fun l => 3 ≤ l.length) = true := by
      by_contra hno
      rw [calculate_none_of_missing_z hand image_shape hd hno] at h
      exact Option.noConfusion h
    intro l hl
    have := List.all_eq_true.mp hall3 l hl
    rwa [decide_eq_true_eq] at this
  have heq := calculate_eq_spec hand image_shape h1 h2 h3
  rw [h, Option.some.injEq] at heq
  subst heq
  exact ⟨h1, h2, rfl, rfl, ⟨spec_avg_z hand.landmarks, rfl⟩, rfl⟩

/-- A session ends faulted, emitting nothing, as soon as handling one message
raises. -/
theorem run_session_faults (env : Env) (msg : InMessage) (rest : List InMessage)
    (h : handle_message env msg = none) :
    run_session env (msg :: rest) = ([], SessionEnd.faulted) := by
  simp [run_session, h]

/-- The control slot stored by `control_of_hands` is occupied exactly when
the hand list is non-empty. -/
theorem control_of_hands_iff (hands : List Hand) (image : Image)
    (control : Option ControlSignal) (h : control_of_hands hands image = some control) :
    control.isSome ↔ hands ≠ [] := by
  cases hands with
  | nil =>
    simp only [control_of_hands, Option.some.injEq] at h
    subst h
    simp
  | cons a t =>
    simp only [control_of_hands] at h
    rcases hc : calculate_control_signal a image.shape with _ | c <;> rw [hc] at h
    · exact absurd h (by simp)
    · rw [Option.some.injEq] at h
      subst h
      simp

/-- Any detection emitted while handling a `frame` message has its control
slot occupied exactly when its hand list is non-empty. -/
theorem handle_frame_control_iff (env : Env) (data : Option String) (ts : Option ℚ)
    (dObj dPose : Option Bool) (outs : List OutMessage) (r : DetectionResult)
    (hm : handle_frame env data ts dObj dPose = some outs)
    (hr : OutMessage.detection r ∈ outs) :
    r.control.isSome ↔ r.hands ≠ [] := by
  cases data with
  | none =>
    simp only [handle_frame, Option.some.injEq] at hm
    subst hm
    simp at hr
  | some s =>
    simp only [handle_frame] at hm
    by_cases hs : s = ""
    · rw [if_pos hs, Option.some.injEq] at hm
      subst hm
      simp at hr
    · rw [if_neg hs] at hm
      simp only [Option.bind_eq_some, Option.some.injEq] at hm
      obtain ⟨image, hdec, hands, hh, objects, ho, pose, hp, control, hc, houts⟩ := hm
      subst houts
      rw [List.mem_singleton, OutMessage.detection.injEq] at hr
      subst hr
      exact control_of_hands_iff hands image control hc

/-- Any detection emitted while handling any single message has its control
slot occupied exactly when its hand list is non-empty. -/
theorem handle_message_control_iff (env : Env) (msg : InMessage) (outs : List OutMessage)
    (r : DetectionResult) (hm : handle_message env msg = some outs)
    (hr : OutMessage.detection r ∈ outs) :
    r.control.isSome ↔ r.hands ≠ [] := by
  cases msg with
  | frame data ts dObj dPose => exact handle_frame_control_iff env data ts dObj dPose outs r hm hr
  | ping ts =>
    simp only [handle_message, Option.some.injEq] at hm
    subst hm
    simp at hr
  | config cfg =>
    simp only [handle_message, Option.some.injEq] at hm
    subst hm
    simp at hr
  | unknown =>
    simp only [handle_message, Option.some.injEq] at hm
    subst hm
    simp at hr

/-! The claims. -/

/-- C1 (amended): in an open session, a decode failure while processing a
single frame message does NOT merely drop the frame: the exception raised by
`decode_image` escapes the message loop, nothing is emitted for that frame
or afterwards, and the session transitions to Faulted with the connection
force-closed. -/
theorem c1_decode_failure_faults_session (env : Env) (s : String) (ts : Option ℚ)
    (dObj dPose : Option Bool) (rest : List InMessage)
    (hs : ¬ s = "") (hdec : env.decode s = none) :
    handle_message env (InMessage.frame (some s) ts dObj dPose) = none ∧
    run_session env (InMessage.frame (some s) ts dObj dPose :: rest) =
      ([], SessionEnd.faulted) := by
  have hh : handle_message env (InMessage.frame (some s) ts dObj dPose) = none := by
    simp [handle_message, handle_frame, if_neg hs, hdec]
  exact ⟨hh, run_session_faults env _ rest hh⟩

/-- C1 witness: a concrete backend whose decoder raises, given one frame. -/
theorem c1_witness :
    handle_message envDecodeFail (InMessage.frame (some "bad") (some 1) none none) = none ∧
    run_session envDecodeFail [InMessage.frame (some "bad") (some 1) none none] =
      ([], SessionEnd.faulted) :=
  c1_decode_failure_faults_session envDecodeFail "bad" (some 1) none none []
    (by decide) rfl

/-- C1 counterexample to the claim as stated: the claim says a decode failure
leaves the session Open and never closes the connection, but on this concrete
input the session run ends `faulted` (the `except Exception` handler closes
the websocket) and emits nothing. -/
theorem c1_counterexample :
    run_session envDecodeFail [InMessage.frame (some "frame0") (some 1) none none] =
      ([], SessionEnd.faulted) := by decide

/-- C2 (amended): startup tolerates no individual model-adapter failure.
`startup_event` returns a ready backend exactly when every one of the four
constructor calls succeeds (and then all capability flags are true); any
single failure re-raises out of the startup hook and nothing is marked
loaded. -/
theorem c2_startup_all_or_nothing (r : InitOutcome) :
    startup_event r =
      (if r.vision_processor_ok ∧ r.hand_tracker_ok ∧ r.yolo_detector_ok ∧
          r.pose_estimator_ok then
        some { vision_processor_loaded := true, hand_tracker_loaded := true,
               yolo_detector_loaded := true, pose_estimator_loaded := true }
      else none) := by
  rcases r with ⟨a, b, c, d⟩
  cases a <;> cases b <;> cases c <;> cases d <;> simp [startup_event]

/-- C2 counterexample to the claim as stated: with only the hand tracker
failing to initialize, the claim says startup completes with that one
capability flag false; instead `startup_event` re-raises and the backend
never becomes ready (no state at all). -/
theorem c2_counterexample :
    startup_event { vision_processor_ok := true, hand_tracker_ok := false,
                    yolo_detector_ok := true, pose_estimator_ok := true } = none := rfl

/-- C3: on every hand detection with a non-empty landmark list (whose
landmarks carry x and y, with depth uniform across the set), the derived
control signal exists and equals the reference definition: direction is
`((mean x - 1/2) * 2, (1/2 - mean y) * 2)` and thrust is
`clamp(1 - (avg_z + 1/2), 0, 1)` with `avg_z` the mean z when depth is
present and 0 otherwise. -/
theorem c3_control_matches_reference (hand : Hand) (image_shape : List ℕ)
    (h1 : hand.landmarks ≠ [])
    (h2 : ∀ l ∈ hand.landmarks, 2 ≤ l.length)
    (h3 : 2 < hand.landmarks.headI.length → ∀ l ∈ hand.landmarks, 3 ≤ l.length) :
    ∃ c, calculate_control_signal hand image_shape = some c ∧
      c.direction = spec_direction hand.landmarks ∧
      c.thrust = spec_thrust hand.landmarks :=
  ⟨_, calculate_eq_spec hand image_shape h1 h2 h3, rfl, rfl⟩

/-- C3 witness: the single-landmark centred hand. -/
theorem c3_witness :
    ∃ c, calculate_control_signal handSmall imgA.shape = some c ∧
      c.direction = spec_direction handSmall.landmarks ∧
      c.thrust = spec_thrust handSmall.landmarks :=
  c3_control_matches_reference handSmall imgA.shape (by decide) (by decide) (by decide)

/-- C4: in every detection result a session ever emits, the control field is
occupied if and only if the hands list is non-empty. -/
theorem c4_control_iff_hands (env : Env) (msgs : List InMessage) (r : DetectionResult)
    (h : OutMessage.detection r ∈ (run_session env msgs).1) :
    r.control.isSome ↔ r.hands ≠ [] := by
  induction msgs with
  | nil => simp [run_session] at h
  | cons m rest ih =>
    rcases hm : handle_message env m with _ | outs
    · rw [run_session, hm] at h
      simp at h
    · rw [run_session, hm] at h
      simp only [List.mem_append] at h
      rcases h with h | h
      · exact handle_message_control_iff env m outs r hm h
      · exact ih h

/-- C4 witness: a session emitting one detection with one hand. -/
theorem c4_witness : rW.control.isSome ↔ rW.hands ≠ [] :=
  c4_control_iff_hands envGood [InMessage.frame (some "f") (some 1) none none] rW
    (by
      have hrun : run_session envGood [InMessage.frame (some "f") (some 1) none none] =
          ([OutMessage.detection rW], SessionEnd.closing) := by
        norm_num [run_session, handle_message, handle_frame, detect_hands, detect_objects,
          detect_pose, control_of_hands, calculate_control_signal, envGood, handSmall,
          imgA, rW, csW]
        simp +decide
      rw [hrun]
      exact List.mem_singleton_self _)

/-- C5: a full 21-landmark hand (all landmarks carrying z) whose average
depth is at most -1/2 derives thrust exactly 1 and action "BOOST". -/
theorem c5_close_hand_boosts (hand : Hand) (image_shape : List ℕ)
    (hcount : hand.landmarks.length = 21)
    (hz : ∀ l ∈ hand.landmarks, 3 ≤ l.length)
    (havg : (hand.landmarks.map (fun l => l.getD 2 0)).sum / (hand.landmarks.length : ℚ) ≤
      -(1/2)) :
    ∃ c, calculate_control_signal hand image_shape = some c ∧
      c.thrust = 1 ∧ c.action = "BOOST" := by
  have h1 : hand.landmarks ≠ [] := by
    intro hnil
    rw [hnil] at hcount
    simp at hcount
  have h2 : ∀ l ∈ hand.landmarks, 2 ≤ l.length := fun l hl => le_trans (by omega) (hz l hl)
  have hdp : spec_depth_present hand.landmarks = true :=
    List.all_eq_true.mpr (fun x hx => decide_eq_true (hz x hx))
  have havgz : spec_avg_z hand.landmarks ≤ -(1/2) := by
    rw [spec_avg_z, if_pos hdp]
    exact havg
  have hthrust : spec_thrust hand.landmarks = 1 := by
    rw [spec_thrust]
    have hmin : min 1 (1 - (spec_avg_z hand.landmarks + 1/2)) = 1 :=
      min_eq_left (by linarith)
    rw [hmin]
    exact max_eq_right (by norm_num)
  refine ⟨_, calculate_eq_spec hand image_shape h1 h2 (fun _ => hz), hthrust, ?_⟩
  rw [hthrust, hcount]
  norm_num

/-- C5 witness: the 21-landmark hand with every z equal to -1. -/
theorem c5_witness :
    ∃ c, calculate_control_signal handBoost imgA.shape = some c ∧
      c.thrust = 1 ∧ c.action = "BOOST" :=
  c5_close_hand_boosts handBoost imgA.shape (by decide) (by decide)
    (by norm_num [handBoost, List.replicate])

/-- C6: every control signal the deriver returns has thrust in `[0, 1]`; and
when the landmark x and y coordinates all lie in `[0, 1]`, its direction
components both lie in `[-1, 1]`. -/
theorem c6_control_bounded (hand : Hand) (image_shape : List ℕ) (c : ControlSignal)
    (h : calculate_control_signal hand image_shape = some c) :
    (0 ≤ c.thrust ∧ c.thrust ≤ 1) ∧
    ((∀ l ∈ hand.landmarks, 0 ≤ l.getD 0 0 ∧ l.getD 0 0 ≤ 1) →
     (∀ l ∈ hand.landmarks, 0 ≤ l.getD 1 0 ∧ l.getD 1 0 ≤ 1) →
     (-1 ≤ c.direction.x ∧ c.direction.x ≤ 1) ∧
     (-1 ≤ c.direction.y ∧ c.direction.y ≤ 1)) := by
  obtain ⟨h1, -, hdx, hdy, ⟨z, hth⟩, -⟩ := calculate_inv hand image_shape c h
  constructor
  · rw [hth]
    exact ⟨le_max_left 0 _, max_le (by norm_num) (min_le_left 1 _)⟩
  · intro hx hy
    have hbx := mean_getD_bounds hand.landmarks 0 h1
      (fun l hl => (hx l hl).1) (fun l hl => (hx l hl).2)
    have hby := mean_getD_bounds hand.landmarks 1 h1
      (fun l hl => (hy l hl).1) (fun l hl => (hy l hl).2)
    rw [spec_center_x] at hdx
    rw [spec_center_y] at hdy
    constructor
    · rw [hdx]
      constructor <;> nlinarith [hbx.1, hbx.2]
    · rw [hdy]
      constructor <;> nlinarith [hby.1, hby.2]

/-- C6 witness: the single-landmark centred hand. -/
theorem c6_witness :
    (0 ≤ csW.thrust ∧ csW.thrust ≤ 1) ∧
    ((∀ l ∈ handSmall.landmarks, 0 ≤ l.getD 0 0 ∧ l.getD 0 0 ≤ 1) →
     (∀ l ∈ handSmall.landmarks, 0 ≤ l.getD 1 0 ∧ l.getD 1 0 ≤ 1) →
     (-1 ≤ csW.direction.x ∧ csW.direction.x ≤ 1) ∧
     (-1 ≤ csW.direction.y ∧ csW.direction.y ≤ 1)) :=
  c6_control_bounded handSmall imgA.shape csW
    (by norm_num [calculate_control_signal, handSmall, csW])

/-- C7: evaluation of the code at the claim's own scenario.  The session
first receives a `config` message enabling object detection on a backend
whose object detector would report `objA` for every frame, then a frame
message carrying no flags of its own.  The handler only echoes the
configuration back (`config_ack`) and stores nothing, so the subsequent
frame is processed with `detectObjects` defaulting to false and its
detection result carries an empty `objects` list — the merged configuration
never takes effect, contradicting the claim. -/
theorem c7_config_update_ignored :
    run_session envNoHands
        [InMessage.config (some { detectObjects := some true, detectPose := none }),
         InMessage.frame (some "f2") (some 2) none none] =
      ([OutMessage.config_ack { detectObjects := some true, detectPose := none },
        OutMessage.detection
          { timestamp := some 2, hands := [], objects := [], pose := none,
            control := none }],
       SessionEnd.closing) := by
  norm_num [run_session, handle_message, handle_frame, detect_hands, detect_objects,
    detect_pose, control_of_hands, envNoHands, emptyConfig]
  simp +decide

/-- C8: whenever the landmark list has fewer than 21 points, any control
signal the deriver returns has action "IDLE", whatever its thrust. -/
theorem c8_few_landmarks_idle (hand : Hand) (image_shape : List ℕ) (c : ControlSignal)
    (hcount : hand.landmarks.length < 21)
    (h : calculate_control_signal hand image_shape = some c) :
    c.action = "IDLE" := by
  obtain ⟨-, -, -, -, -, haction⟩ := calculate_inv hand image_shape c h
  rw [haction, if_neg (by omega)]

/-- C8 witness: the single-landmark hand. -/
theorem c8_witness : csW.action = "IDLE" :=
  c8_few_landmarks_idle handSmall imgA.shape csW (by decide)
    (by norm_num [calculate_control_signal, handSmall, csW])

/-- C10: on well-formed landmarks (every landmark carries x and y; if the
first carries z then all do), the control-signal derivation is total exactly
on non-empty landmark lists: it returns a signal iff the list is non-empty,
and on the empty list it raises instead of returning a value. -/
theorem c10_total_iff_nonempty (hand : Hand) (image_shape : List ℕ)
    (h2 : ∀ l ∈ hand.landmarks, 2 ≤ l.length)
    (h3 : 2 < hand.landmarks.headI.length → ∀ l ∈ hand.landmarks, 3 ≤ l.length) :
    (calculate_control_signal hand image_shape).isSome ↔ hand.landmarks ≠ [] := by
  constructor
  · intro hsome
    obtain ⟨c, hc⟩ := Option.isSome_iff_exists.mp hsome
    exact (calculate_inv hand image_shape c hc).1
  · intro h1
    rw [calculate_eq_spec hand image_shape h1 h2 h3]
    rfl

/-- C10 witness: the single-landmark hand (one landmark, a signal exists). -/
theorem c10_witness :
    (calculate_control_signal handSmall imgA.shape).isSome ↔ handSmall.landmarks ≠ [] :=
  c10_total_iff_nonempty handSmall imgA.shape (by decide) (by decide)

end AeroNav
